import Mathlib

/-!
Shallow embedding of the RemotePlatform skill (src/__init__.py), the idle
display controller of the skill-remote-platform repository.

Modelling conventions:
* Time values (time.monotonic results and offsets) are integers (Int).
* A Python Message is a record with a message type and a data payload; the
  payload dict is modelled as a record of optional fields, one per key the
  controller reads.  A field that is none models a key absent from the dict.
* The mutable skill object is a SkillState record; every handler is a
  function from its inputs and the current state to the next state.
* bus.emit is modelled by appending the emitted message to the emitted list.
* schedule_event / cancel_scheduled_event for the single "IdleCheck" one-shot
  are modelled by the scheduled field: some offset means a one-shot timer is
  armed to fire after that many time units, none means no pending timer.
* A handler that can raise an uncaught Python exception returns
  SkillState × Option String: the state as mutated up to the raise point and
  some description when an exception propagates, none on normal return.
-/

/-! String helpers: Python "sub in s" and str.endswith. -/

/-- Front match on character lists: charsMatchFront n h is true when h starts
with n. -/
def charsMatchFront : List Char → List Char → Bool
  | [], _ => true
  | _ :: _, [] => false
  | a :: as, b :: bs => a == b && charsMatchFront as bs

/-- Search for a sub-list anywhere: models the Python "needle in haystack"
test on strings. -/
def charsFindSub (needle : List Char) : List Char → Bool
  | [] => needle.isEmpty
  | c :: rest => charsMatchFront needle (c :: rest) || charsFindSub needle rest

/-- Python membership test "sub in hay" on strings. -/
def strContains (hay sub : String) : Bool :=
  charsFindSub sub.toList hay.toList

/-- Python hay.endswith(sub). -/
def strEndsWith (hay sub : String) : Bool :=
  charsMatchFront sub.toList.reverse hay.toList.reverse

/-! Message model. -/

/-- Value of the dunder-idle key of a page-show payload.  In Python it is read
with dict.get; it can be the literal True or False or an int (bool is a
subtype of int in Python, so False satisfies the isinstance int check).  A
value of any other type behaves, in the handler below, exactly like an absent
key, so it is not modelled separately. -/
inductive PyIdle where
  | pyBool (b : Bool)
  | pyInt (n : Int)
deriving DecidableEq

/-- Payload dict of a bus message; each field models one key the controller
reads (none models an absent key).  fromField is the dunder-from key and
idleDirective the dunder-idle key of gui.page.show payloads. -/
structure MsgData where
  fromField : Option String := none
  idleDirective : Option PyIdle := none
  page : Option (List String) := none
  name : Option String := none
  id : Option String := none
  handler : Option String := none
  selected : Option String := none
  method : Option String := none
  skill_id : Option String := none
  setting_key : Option String := none
  setting_type : Option String := none
  current_value : Option String := none
  available_values : Option String := none
deriving DecidableEq

/-- Payload dict with every key absent. -/
def emptyData : MsgData := {}

/-- Bus message: type string plus payload. -/
structure Message where
  msg_type : String
  data : MsgData
deriving DecidableEq

/-- Entry of the skill_setting_list built by handle_skill_setting_show. -/
structure SkillSetting where
  skill_id : String
  setting_key : String
  setting_type : String
  current_value : String
  available_values : String
deriving DecidableEq

/-! Python dict operations for idle_screens (name to id). -/

/-- Python dict assignment d[k] = v: last write wins per key. -/
def dictInsert (k v : String) (d : List (String × String)) :
    List (String × String) :=
  (k, v) :: d.filter (fun p => p.1 ≠ k)

/-- Python dict d.get(k): some value when present, none when absent. -/
def dictGet (k : String) : List (String × String) → Option String
  | [] => none
  | (k2, v) :: rest => if k = k2 then some v else dictGet k rest

/-! Skill state (the mutable attributes of the RemotePlatform object that the
idle machinery touches). -/

/-- Mutable state of the RemotePlatform skill object.
idle_screens models self.idle_screens, override_idle models
self.override_idle (message paired with the monotonic time it was set),
idle_next models self.idle_next, scheduled models the pending IdleCheck
one-shot event, has_show_page models self.has_show_page, gui_selected models
self.gui with key selected (none when the key was never set),
gui_selectedScreen and settings_selected model the bookkeeping written by
save_resting_screen, skill_setting_list and skill_setting_configs model
self.skill_setting_list and the configs key of self.skill_setting_obj, and
emitted collects the messages passed to self.bus.emit. -/
structure SkillState where
  idle_screens : List (String × String)
  override_idle : Option (Message × Int)
  idle_next : Int
  scheduled : Option Int
  has_show_page : Bool
  gui_selected : Option String
  gui_selectedScreen : Option String
  settings_selected : Option String
  skill_setting_list : List SkillSetting
  skill_setting_configs : Option (List SkillSetting)
  emitted : List Message
deriving DecidableEq

/-- State as built by the object constructor: empty registry, no override,
idle_next = 0, nothing scheduled, has_show_page false, no gui selected key
yet (the setup method later defaults it), empty settings list, nothing
emitted. -/
def initState : SkillState :=
  { idle_screens := []
    override_idle := none
    idle_next := 0
    scheduled := none
    has_show_page := false
    gui_selected := none
    gui_selectedScreen := none
    settings_selected := none
    skill_setting_list := []
    skill_setting_configs := none
    emitted := [] }

/-! Handlers, translated from src/__init__.py. -/

/-- cancel_idle_event (lines 305-307): sets idle_next to 0 and cancels the
scheduled IdleCheck event. -/
def cancel_idle_event (s : SkillState) : SkillState :=
  { s with idle_next := 0, scheduled := none }

/-- start_idle_event (lines 309-333).  Gate: when now + offset < idle_next the
call returns without any update ("No update, before next time").  Otherwise,
when not weak, idle_next is set to now + offset; in both cases the existing
IdleCheck event is cancelled and a new one-shot is scheduled for offset time
units (the try block around this body catches exceptions from the scheduler
layer, which the model treats as absent). -/
def start_idle_event (now offset : Int) (weak : Bool) (s : SkillState) :
    SkillState :=
  if now + offset < s.idle_next then s
  else
    let s1 := if weak then s else { s with idle_next := now + offset }
    { s1 with scheduled := some offset }

/-- Message emitted for a registered idle screen: Message with type
screen-id followed by ".idle" and an empty payload (line 350). -/
def idleMessage (scr : String) : Message :=
  { msg_type := scr ++ ".idle", data := emptyData }

/-- show_idle_screen (lines 335-350): with an active override, re-emit the
stored overriding message; otherwise, when the registry is non-empty and the
gui has a selected key, look the selected name up in idle_screens and emit
its ".idle" message.  Python truthiness: a missing registry entry (None) or
an empty-string screen id emits nothing. -/
def show_idle_screen (s : SkillState) : SkillState :=
  match s.override_idle with
  | some ov => { s with emitted := s.emitted ++ [ov.1] }
  | none =>
    match s.gui_selected with
    | none => s
    | some sel =>
      if s.idle_screens.length > 0 then
        match dictGet sel s.idle_screens with
        | some scr =>
          if scr = "" then s
          else { s with emitted := s.emitted ++ [idleMessage scr] }
        | none => s
      else s

/-- force_idle_screen (lines 352-357): when an override is active and more
than 2 time units old, clear it and show the idle screen; otherwise just call
show_idle_screen (which re-emits a still-active override). -/
def force_idle_screen (now : Int) (s : SkillState) : SkillState :=
  match s.override_idle with
  | some ov =>
    if now - ov.2 > 2 then show_idle_screen { s with override_idle := none }
    else show_idle_screen s
  | none => show_idle_screen s

/-- on_register_idle (lines 170-176): insert the name-to-id entry when both
keys are present, otherwise only log an error (state unchanged, no raise). -/
def on_register_idle (msg : Message) (s : SkillState) : SkillState :=
  match msg.data.name, msg.data.id with
  | some n, some i => { s with idle_screens := dictInsert n i s.idle_screens }
  | _, _ => s

/-- on_gui_page_show (lines 230-250).  A message whose dunder-from contains
"remote-platform" is ignored.  Otherwise has_show_page is set, then: dunder
idle literally True cancels the idle event and records the override; a bool
False or an int value is an isinstance int hit and starts a non-weak idle
event for that many units (False counts as 0); otherwise the page key is
indexed directly, raising a KeyError when absent, and a non-empty page list
whose first entry does not end in "idle.qml" starts the default 30-unit idle
event. -/
def on_gui_page_show (now : Int) (msg : Message) (s : SkillState) :
    SkillState × Option String :=
  if strContains (msg.data.fromField.getD "") "remote-platform" then (s, none)
  else
    let s1 := { s with has_show_page := true }
    match msg.data.idleDirective with
    | some (.pyBool true) =>
      let s2 := cancel_idle_event s1
      ({ s2 with override_idle := some (msg, now) }, none)
    | some (.pyBool false) => (start_idle_event now 0 false s1, none)
    | some (.pyInt n) => (start_idle_event now n false s1, none)
    | none =>
      match msg.data.page with
      | none => (s1, some "KeyError: page")
      | some ps =>
        if ps ≠ [] ∧ ¬ strEndsWith (ps.headD "") "idle.qml" = true
        then (start_idle_event now 30 false s1, none)
        else (s1, none)

/-- on_gui_page_interaction (lines 225-228): reset the idle timer to 30
units. -/
def on_gui_page_interaction (now : Int) (s : SkillState) : SkillState :=
  start_idle_event now 30 false s

/-- on_handler_complete (lines 266-286): handler names containing
"RemotePlatform" or "TimeSkill.update_display" are ignored; otherwise
has_show_page is cleared.  The hourglass_info block that follows is wrapped
in try/except pass and, the attribute never being assigned anywhere in the
file, is a no-op. -/
def on_handler_complete (msg : Message) (s : SkillState) : SkillState :=
  let handler := msg.data.handler.getD ""
  if strContains handler "RemotePlatform" then s
  else if strContains handler "TimeSkill.update_display" then s
  else { s with has_show_page := false }

/-- save_resting_screen (lines 154-162): copies the gui selected value into
the persisted settings and the gui selectedScreen key. -/
def save_resting_screen (s : SkillState) : SkillState :=
  { s with settings_selected := s.gui_selected,
           gui_selectedScreen := s.gui_selected }

/-- set_idle_screen (lines 391-394): indexes the selected key directly
(KeyError when absent), stores it as the gui selected value and calls
save_resting_screen. -/
def set_idle_screen (msg : Message) (s : SkillState) :
    SkillState × Option String :=
  match msg.data.selected with
  | none => (s, some "KeyError: selected")
  | some sel => (save_resting_screen { s with gui_selected := some sel }, none)

/-- Update of the first list entry with the given skill_id, as done by the
update branch of handle_skill_setting_show. -/
def updCurrent (sid cv : String) : List SkillSetting → List SkillSetting
  | [] => []
  | it :: rest =>
    if it.skill_id = sid then { it with current_value := cv } :: rest
    else it :: updCurrent sid cv rest

/-- handle_skill_setting_show (lines 401-427).  Every key is indexed directly
(KeyError when absent).  The set branch appends an entry; the update branch
finds the first entry with the matching skill_id (StopIteration when none)
and updates its current value; an unknown method only logs.  Afterwards the
configs key of skill_setting_obj is set and the final line serializes the
bare name skill_setting_obj, which is undefined (the attribute is
self.skill_setting_obj), so every invocation that reaches the end of its
branch raises a NameError. -/
def handle_skill_setting_show (msg : Message) (s : SkillState) :
    SkillState × Option String :=
  match msg.data.method with
  | none => (s, some "KeyError: method")
  | some m =>
    if m = "set" then
      match msg.data.skill_id, msg.data.setting_key, msg.data.setting_type,
            msg.data.current_value, msg.data.available_values with
      | some sid, some sk, some st, some cv, some av =>
        let s1 := { s with skill_setting_list :=
          (s.skill_setting_list ++ [SkillSetting.mk sid sk st cv av]) }
        let s2 := { s1 with skill_setting_configs := some s1.skill_setting_list }
        (s2, some "NameError: name skill_setting_obj is not defined")
      | _, _, _, _, _ => (s, some "KeyError: missing set field")
    else if m = "update" then
      match s.skill_setting_list.find?
          (fun it => some it.skill_id == msg.data.skill_id) with
      | none => (s, some "StopIteration")
      | some _ =>
        match msg.data.skill_id, msg.data.current_value with
        | some sid, some cv =>
          let s1 := { s with skill_setting_list :=
            (updCurrent sid cv s.skill_setting_list) }
          let s2 := { s1 with skill_setting_configs := some s1.skill_setting_list }
          (s2, some "NameError: name skill_setting_obj is not defined")
        | _, _ => (s, some "KeyError: missing update field")
    else
      let s2 := { s with skill_setting_configs := some s.skill_setting_list }
      (s2, some "NameError: name skill_setting_obj is not defined")

/-- Event names subscribed during the setup method (lines 59-131), through
add_event, bus.on and gui.register_handler, in source order.  The
mycroft.skill.handler.complete event is not among them: on_handler_complete
is defined but never registered. -/
def initEventNames : List String :=
  [ "mycroft.gui.screen.close", "mycroft.gui.screen.close",
    "mycroft.gui.screen.close", "mycroft.gui.forceHome",
    "recognizer_loop:record_end", "mycroft.speech.recognition.unknown",
    "mycroft.skill.handler.start", "recognizer_loop:sleep",
    "mycroft.awoken", "enclosure.mouth.reset",
    "recognizer_loop:audio_output_end", "enclosure.mouth.viseme_list",
    "gui.page.show", "gui.page_interaction",
    "mycroft.skills.initialized", "mycroft.mark2.register_idle",
    "gui.skill.settings.show", "mycroft.device.settings",
    "mycroft.device.settings", "mycroft.device.settings.homescreen",
    "mycroft.device.show.idle", "mycroft.device.settings.skillconfig",
    "mycroft.device.set.idle" ]

/-! Sequences of idle-timer operations, for the deadline-tracking claim. -/

/-- Operation on the idle timer: a start_idle_event call at a given monotonic
time, or a cancel_idle_event call. -/
inductive IdleOp where
  | start (now offset : Int) (weak : Bool)
  | cancel
deriving DecidableEq

/-- Apply one idle-timer operation to the state. -/
def applyIdleOp (s : SkillState) : IdleOp → SkillState
  | .start now off w => start_idle_event now off w s
  | .cancel => cancel_idle_event s

/-- Run a sequence of idle-timer operations left to right. -/
def runIdleOps (s : SkillState) : List IdleOp → SkillState
  | [] => s
  | op :: rest => runIdleOps (applyIdleOp s op) rest

/-- Collection step for the requested-deadline list: a non-weak start appends
its deadline (call time plus offset), a weak start adds nothing, a cancel
clears the collection. -/
def nonWeakStep (acc : List Int) : IdleOp → List Int
  | .start now off w => if w then acc else acc ++ [now + off]
  | .cancel => []

/-- Modelled from the spec wording of the deadline invariant: the list of
non-weak requested deadlines (call time plus offset) seen since the last
cancel. -/
def nonWeakDeadlines (ops : List IdleOp) : List Int :=
  ops.foldl nonWeakStep []

/-- Minimum of a list of integers, none on the empty list. -/
def minOfList : List Int → Option Int
  | [] => none
  | x :: xs => some (xs.foldl min x)

/-- Deadline value the code actually tracks: starting from d, a non-weak
start raises the tracked value to the maximum of itself and the requested
deadline, a weak start leaves it alone, and a cancel resets it to 0. -/
def specMaxDeadline (d : Int) : List IdleOp → Int
  | [] => d
  | IdleOp.cancel :: rest => specMaxDeadline 0 rest
  | IdleOp.start now off w :: rest =>
    specMaxDeadline (if w then d else max d (now + off)) rest

/-! Concrete fixtures used by the theorems below. -/

/-- Registration message carrying both name and id. -/
def registerMsg (n i : String) : Message :=
  { msg_type := "mycroft.mark2.register_idle",
    data := { emptyData with name := some n, id := some i } }

/-- Registration message carrying only a name (id key absent). -/
def regNoIdMsg : Message :=
  { msg_type := "mycroft.mark2.register_idle",
    data := { emptyData with name := some "A" } }

/-- Idle-screen selection message. -/
def selectMsg (b : String) : Message :=
  { msg_type := "mycroft.device.set.idle",
    data := { emptyData with selected := some b } }

/-- Page-show message from another skill with a numeric idle directive of
15. -/
def pageShowMsg15 : Message :=
  { msg_type := "gui.page.show",
    data := { emptyData with
                fromField := some "SomeSkill"
                idleDirective := some (PyIdle.pyInt 15)
                page := some ["foo.qml"] } }

/-- Page-show message from another skill with no idle directive and no page
key at all. -/
def pageShowNoPage : Message :=
  { msg_type := "gui.page.show",
    data := { emptyData with fromField := some "SomeSkill" } }

/-- Page-show message from another skill asking to suppress the idle screen
indefinitely (idle directive literally True). -/
def suppressMsg : Message :=
  { msg_type := "gui.page.show",
    data := { emptyData with
                fromField := some "OtherSkill"
                idleDirective := some (PyIdle.pyBool true) } }

/-- Well-formed settings message with method set and all five fields. -/
def settingSetMsg : Message :=
  { msg_type := "gui.skill.settings.show",
    data := { emptyData with
                method := some "set"
                skill_id := some "skill-foo"
                setting_key := some "k"
                setting_type := some "t"
                current_value := some "v"
                available_values := some "a" } }

/-- Handler-complete message for the background clock handler. -/
def timeskillMsg : Message :=
  { msg_type := "mycroft.skill.handler.complete",
    data := { emptyData with handler := some "TimeSkill.update_display" } }

/-- Handler-complete message for an unrelated skill handler. -/
def otherHandlerMsg : Message :=
  { msg_type := "mycroft.skill.handler.complete",
    data := { emptyData with handler := some "WeatherSkill.handle" } }

/-- Message stored as an idle override. -/
def overrideMsg : Message := { msg_type := "ov", data := emptyData }

/-- State with an override set at time 10, a registered screen B mapped to
id2 and B selected. -/
def stateOverridden : SkillState :=
  { initState with
      override_idle := some (overrideMsg, 10)
      idle_screens := [("B", "id2")]
      gui_selected := some "B" }

/-- State with a pending idle deadline of 100 and nothing else. -/
def statePending100 : SkillState := { initState with idle_next := 100 }

/-- State with a pending deadline of 50 and an armed one-shot timer. -/
def statePending : SkillState :=
  { initState with idle_next := 50, scheduled := some 3 }

/-- State with empty registry, no override, a stale deadline and an armed
timer. -/
def stateNoRegistry : SkillState :=
  { initState with idle_next := 42, scheduled := some 9 }

/-! Helper lemmas. -/

/-- Effect of start_idle_event on the tracked deadline: a weak call leaves it
unchanged and a non-weak call raises it to the maximum of itself and the
requested deadline (the gate rejects anything smaller). -/
theorem start_idle_event_idle_next (now off : Int) (w : Bool) (s : SkillState) :
    (start_idle_event now off w s).idle_next =
      if w then s.idle_next else max s.idle_next (now + off) := by
  unfold start_idle_event
  by_cases h : now + off < s.idle_next
  · rw [if_pos h]
    cases w with
    | false => simp [max_eq_left h.le]
    | true => simp
  · rw [if_neg h]
    cases w with
    | false => simp [max_eq_right (le_of_not_lt h)]
    | true => simp

/-- Tracked deadline of a run of idle operations, from any starting state. -/
theorem runIdleOps_idle_next (ops : List IdleOp) (s : SkillState) :
    (runIdleOps s ops).idle_next = specMaxDeadline s.idle_next ops := by
  induction ops generalizing s with
  | nil => rfl
  | cons op rest ih =>
    cases op with
    | cancel =>
      show (runIdleOps (cancel_idle_event s) rest).idle_next = specMaxDeadline 0 rest
      rw [ih]
      rfl
    | start now off w =>
      show (runIdleOps (start_idle_event now off w s) rest).idle_next = _
      rw [ih, start_idle_event_idle_next]
      rfl

/-- Running maximum of the collected non-weak deadlines agrees with
specMaxDeadline when the accumulator and the tracked value agree. -/
theorem specMaxDeadline_foldl (ops : List IdleOp) (acc : List Int) (d : Int)
    (h : d = acc.foldl max 0) :
    specMaxDeadline d ops = (ops.foldl nonWeakStep acc).foldl max 0 := by
  induction ops generalizing acc d with
  | nil => simpa using h
  | cons op rest ih =>
    cases op with
    | cancel =>
      show specMaxDeadline 0 rest = _
      exact ih _ 0 rfl
    | start now off w =>
      cases w with
      | true =>
        show specMaxDeadline d rest = _
        exact ih _ d h
      | false =>
        show specMaxDeadline (max d (now + off)) rest = _
        exact ih (acc ++ [now + off]) (max d (now + off))
          (by subst h; rw [List.foldl_append]; rfl)

/-- A successful dict lookup means the dict is non-empty. -/
theorem dictGet_some_length_pos (k v : String) (l : List (String × String))
    (h : dictGet k l = some v) : 0 < l.length := by
  cases l with
  | nil => simp [dictGet] at h
  | cons a rest => simp

/-! Claim theorems. -/

/-- C1 counterexample: after a cancel, the call sequence start(now 0, offset
100, strong) then start(now 1, offset 10, strong) has non-weak requested
deadlines 100 and 11, whose minimum is 11, yet the tracked deadline idle_next
is 100: the second, sooner request is rejected by the gate, so the tracked
deadline is NOT the minimum of the requested deadlines. -/
theorem c1_min_deadline_cex :
    nonWeakDeadlines [IdleOp.start 0 100 false, IdleOp.start 1 10 false] =
      [100, 11] ∧
    minOfList [100, 11] = some 11 ∧
    (runIdleOps (cancel_idle_event initState)
      [IdleOp.start 0 100 false, IdleOp.start 1 10 false]).idle_next = 100 ∧
    (100 : Int) ≠ 11 := by
  refine ⟨?_, ?_, ?_, ?_⟩
  · rfl
  · rfl
  · rfl
  · decide

/-- C1 (amended): for every sequence of start_idle_event and
cancel_idle_event calls run from a just-cancelled state, the tracked deadline
idle_next equals the MAXIMUM (with base 0) of the non-weak requested
deadlines (call time plus offset) seen since the last cancel_idle_event; a
weak call or a call whose deadline is below the tracked value leaves it
unchanged. -/
theorem c1_deadline_is_max_of_requests (ops : List IdleOp) (s : SkillState) :
    (runIdleOps (cancel_idle_event s) ops).idle_next =
      (nonWeakDeadlines ops).foldl max 0 := by
  rw [runIdleOps_idle_next]
  exact specMaxDeadline_foldl ops [] 0 rfl

/-- C2 counterexample: with a pending tracked deadline of 100, delivering at
time 0 a page-shown event from another skill carrying the numeric idle
directive 15 returns normally but leaves the tracked deadline at 100, not at
now + 15 = 15: the numeric timeout does NOT override the previously pending
longer deadline. -/
theorem c2_pending_longer_wins_cex :
    statePending100.idle_next = 100 ∧
    (on_gui_page_show 0 pageShowMsg15 statePending100).2 = none ∧
    (on_gui_page_show 0 pageShowMsg15 statePending100).1.idle_next = 100 ∧
    (100 : Int) ≠ 0 + 15 := by
  refine ⟨?_, ?_, ?_, ?_⟩
  · rfl
  · rfl
  · rfl
  · decide

/-- C2 (amended): a page-shown event from another sender carrying a numeric
idle directive n starts a strong idle event for n units, but the gate of
start_idle_event keeps a pending LATER deadline: the resulting tracked
deadline is now + n only when now + n is at least the pending deadline, and
is the unchanged pending deadline otherwise. -/
theorem c2_numeric_idle_gated (now n : Int) (msg : Message) (s : SkillState)
    (hfrom : strContains (msg.data.fromField.getD "") "remote-platform" = false)
    (hidle : msg.data.idleDirective = some (PyIdle.pyInt n)) :
    (on_gui_page_show now msg s).2 = none ∧
    (on_gui_page_show now msg s).1.idle_next =
      if now + n < s.idle_next then s.idle_next else now + n := by
  unfold on_gui_page_show
  rw [hfrom]
  simp only [Bool.false_eq_true, if_false, hidle]
  constructor
  · trivial
  · by_cases h : now + n < s.idle_next <;> simp [start_idle_event, h]

/-- C2 witness: the amended statement evaluated at the concrete
counterexample input. -/
theorem c2_numeric_idle_gated_witness :
    (on_gui_page_show 0 pageShowMsg15 statePending100).2 = none ∧
    (on_gui_page_show 0 pageShowMsg15 statePending100).1.idle_next =
      if (0 : Int) + 15 < statePending100.idle_next then
        statePending100.idle_next
      else 0 + 15 :=
  c2_numeric_idle_gated 0 15 pageShowMsg15 statePending100 (by decide) rfl

/-- C3 counterexample: a page-shown event from another skill with no idle
directive and no page key makes on_gui_page_show raise a KeyError, and a
well-formed settings message with method set makes handle_skill_setting_show
raise a NameError (the final line serializes the undefined bare name
skill_setting_obj): these handlers do NOT catch exceptions. -/
theorem c3_handler_raises_cex :
    (on_gui_page_show 0 pageShowNoPage initState).2 = some "KeyError: page" ∧
    (handle_skill_setting_show settingSetMsg initState).2 =
      some "NameError: name skill_setting_obj is not defined" :=
  ⟨rfl, rfl⟩

/-- C3 (amended): not every handler catches exceptions.  on_gui_page_show
propagates a KeyError on any page-shown event from another sender that lacks
both an idle directive and a page key, and handle_skill_setting_show raises
on EVERY message (each branch either hits a missing key, an empty search, or
the undefined bare name skill_setting_obj on its final line).  Only the
setup method and on_register_idle tolerate malformed input. -/
theorem c3_handlers_propagate :
    (∀ (now : Int) (msg : Message) (s : SkillState),
        strContains (msg.data.fromField.getD "") "remote-platform" = false →
        msg.data.idleDirective = none →
        msg.data.page = none →
        (on_gui_page_show now msg s).2 = some "KeyError: page") ∧
    (∀ (msg : Message) (s : SkillState),
        (handle_skill_setting_show msg s).2.isSome = true) := by
  constructor
  · intro now msg s hfrom hidle hpage
    unfold on_gui_page_show
    rw [hfrom]
    simp [hidle, hpage]
  · intro msg s
    unfold handle_skill_setting_show
    split
    · rfl
    · split
      · split <;> rfl
      · split
        · split
          · rfl
          · split <;> rfl
        · rfl

/-- C3 witness: the amended statement evaluated at the concrete failing
inputs. -/
theorem c3_handlers_propagate_witness :
    (on_gui_page_show 5 pageShowNoPage initState).2 = some "KeyError: page" ∧
    (handle_skill_setting_show settingSetMsg initState).2.isSome = true :=
  ⟨c3_handlers_propagate.1 5 pageShowNoPage initState (by decide) rfl rfl,
   c3_handlers_propagate.2 settingSetMsg initState⟩

/-- C4: a start_idle_event call that passes the deadline gate (now + offset
not below the tracked deadline) leaves idle_next unmodified when weak, while
still cancelling the pending IdleCheck event and arming a new one-shot for
offset units; the same call with weak false additionally sets idle_next to
now + offset.  All other state is untouched in both cases. -/
theorem c4_weak_start_frame (now off : Int) (s : SkillState)
    (h : ¬ now + off < s.idle_next) :
    start_idle_event now off true s = { s with scheduled := some off } ∧
    start_idle_event now off false s =
      { s with idle_next := now + off, scheduled := some off } := by
  constructor <;> simp [start_idle_event, h]

/-- C4 witness: the frame property evaluated at now = 5, offset = 7 from the
freshly constructed state (tracked deadline 0, so the gate passes). -/
theorem c4_weak_start_frame_witness :
    start_idle_event 5 7 true initState = { initState with scheduled := some 7 } ∧
    start_idle_event 5 7 false initState =
      { initState with idle_next := 12, scheduled := some 7 } :=
  c4_weak_start_frame 5 7 initState (by decide)

/-- C5 counterexample: the handler-complete event name is never subscribed
during setup, and a handler-complete message for TimeSkill.update_display
(a handler name that does not name the controller, RemotePlatform) leaves
has_show_page at true instead of resetting it. -/
theorem c5_handler_complete_cex :
    "mycroft.skill.handler.complete" ∉ initEventNames ∧
    strContains "TimeSkill.update_display" "RemotePlatform" = false ∧
    (on_handler_complete timeskillMsg
      { initState with has_show_page := true }).has_show_page = true := by
  refine ⟨?_, ?_, ?_⟩
  · decide
  · rfl
  · rfl

/-- C5 (amended): on_handler_complete is defined but never registered (the
handler-complete event name is not among the names subscribed during setup);
when invoked, it resets has_show_page to false exactly for handler names
containing neither RemotePlatform nor TimeSkill.update_display, the second
exclusion being the background clock handler, not a self-originated one. -/
theorem c5_handler_complete_resets :
    "mycroft.skill.handler.complete" ∉ initEventNames ∧
    ∀ (msg : Message) (s : SkillState),
      strContains (msg.data.handler.getD "") "RemotePlatform" = false →
      strContains (msg.data.handler.getD "") "TimeSkill.update_display" = false →
      on_handler_complete msg s = { s with has_show_page := false } := by
  constructor
  · decide
  · intro msg s h1 h2
    simp [on_handler_complete, h1, h2]

/-- C5 witness: the amended statement evaluated on a handler-complete
message for an unrelated skill handler. -/
theorem c5_handler_complete_resets_witness :
    "mycroft.skill.handler.complete" ∉ initEventNames ∧
    on_handler_complete otherHandlerMsg initState =
      { initState with has_show_page := false } :=
  ⟨c5_handler_complete_resets.1,
   c5_handler_complete_resets.2 otherHandlerMsg initState (by decide) (by decide)⟩

/-- C6: force_idle_screen with an override set at time t0, called at time
t0 + d with the selected screen registered: when d is at most 2 it re-emits
the stored overriding message and keeps the override; when d is 3 or more it
clears the override and emits the selected registry screen idle message
instead. -/
theorem c6_force_idle_override_grace (msg : Message) (t0 d : Int)
    (s : SkillState) (sel scr : String)
    (hov : s.override_idle = some (msg, t0))
    (hsel : s.gui_selected = some sel)
    (hscr : dictGet sel s.idle_screens = some scr)
    (hne : scr ≠ "") :
    (d ≤ 2 →
      force_idle_screen (t0 + d) s = { s with emitted := s.emitted ++ [msg] }) ∧
    (3 ≤ d →
      force_idle_screen (t0 + d) s =
        { s with override_idle := none,
                 emitted := s.emitted ++ [idleMessage scr] }) := by
  constructor
  · intro hd
    unfold force_idle_screen
    rw [hov]
    simp only
    rw [if_neg (by omega : ¬ t0 + d - t0 > 2)]
    unfold show_idle_screen
    rw [hov]
  · intro hd
    unfold force_idle_screen
    rw [hov]
    simp only
    rw [if_pos (by omega : t0 + d - t0 > 2)]
    unfold show_idle_screen
    simp only [hsel, hscr, dictGet_some_length_pos sel scr s.idle_screens hscr,
      if_pos, hne, if_neg]
    simp [hne]

/-- C6 witness: the grace-period behaviour evaluated on the concrete
overridden state (override set at 10) at elapsed times 1 and 4. -/
theorem c6_force_idle_override_grace_witness :
    force_idle_screen 11 stateOverridden =
      { stateOverridden with emitted := [overrideMsg] } ∧
    force_idle_screen 14 stateOverridden =
      { stateOverridden with override_idle := none,
                             emitted := [idleMessage "id2"] } :=
  ⟨(c6_force_idle_override_grace overrideMsg 10 1 stateOverridden "B" "id2"
      rfl rfl rfl (by decide)).1 (by decide),
   (c6_force_idle_override_grace overrideMsg 10 4 stateOverridden "B" "id2"
      rfl rfl rfl (by decide)).2 (by decide)⟩

/-- C7: a page-shown event from another sender whose idle directive is
literally True, delivered with no active override, cancels the pending idle
timer (tracked deadline 0, scheduled one-shot removed), starts no new timer,
records the override as the event paired with the current time, and returns
without raising; only has_show_page changes besides. -/
theorem c7_idle_true_suppresses (now : Int) (msg : Message) (s : SkillState)
    (hfrom : strContains (msg.data.fromField.getD "") "remote-platform" = false)
    (hidle : msg.data.idleDirective = some (PyIdle.pyBool true))
    (_hov : s.override_idle = none) :
    on_gui_page_show now msg s =
      ({ s with has_show_page := true, idle_next := 0, scheduled := none,
                override_idle := some (msg, now) }, none) := by
  unfold on_gui_page_show
  rw [hfrom]
  simp [hidle, cancel_idle_event]

/-- C7 witness: the suppression behaviour evaluated on the concrete
suppressing message against a state with a pending deadline of 50 and an
armed timer. -/
theorem c7_idle_true_suppresses_witness :
    on_gui_page_show 7 suppressMsg statePending =
      ({ statePending with
          has_show_page := true, idle_next := 0, scheduled := none,
          override_idle := some (suppressMsg, 7) }, none) :=
  c7_idle_true_suppresses 7 suppressMsg statePending (by decide) rfl rfl

/-- C8: after registering screen a mapped to id1 and screen b mapped to id2
and selecting b, a show_idle_screen call on the resulting state (which has no
active override) emits exactly one message, whose type is id2 followed by
".idle".  The hypothesis id2 nonempty reflects Python truthiness: an
empty-string screen id would be falsy and nothing would be emitted. -/
theorem c8_selected_screen_idle (a id1 b id2 : String) (h : id2 ≠ "") :
    (show_idle_screen
      (set_idle_screen (selectMsg b)
        (on_register_idle (registerMsg b id2)
          (on_register_idle (registerMsg a id1) initState))).1).emitted =
      [{ msg_type := id2 ++ ".idle", data := emptyData }] := by
  simp [registerMsg, selectMsg, on_register_idle, set_idle_screen,
    save_resting_screen, show_idle_screen, dictInsert, dictGet, emptyData,
    initState, idleMessage, h]

/-- C8 witness: the registration scenario evaluated at the concrete names A,
id1, B, id2. -/
theorem c8_selected_screen_idle_witness :
    (show_idle_screen
      (set_idle_screen (selectMsg "B")
        (on_register_idle (registerMsg "B" "id2")
          (on_register_idle (registerMsg "A" "id1") initState))).1).emitted =
      [{ msg_type := "id2" ++ ".idle", data := emptyData }] :=
  c8_selected_screen_idle "A" "id1" "B" "id2" (by decide)

/-- C9: a registration message missing the id key (or the name key) leaves
the whole state, in particular the idle_screens registry, unchanged;
on_register_idle is a total function of the message, so no exception is
raised, the malformed message being only logged. -/
theorem c9_malformed_registration_noop (msg : Message) (s : SkillState)
    (h : msg.data.name = none ∨ msg.data.id = none) :
    on_register_idle msg s = s := by
  unfold on_register_idle
  rcases h with h | h
  · rw [h]
  · rw [h]
    rcases msg.data.name with _ | n <;> rfl

/-- C9 witness: a registration message carrying only a name. -/
theorem c9_malformed_registration_noop_witness :
    on_register_idle regNoIdMsg initState = initState :=
  c9_malformed_registration_noop regNoIdMsg initState (Or.inr rfl)

/-- C10: with an empty registry and no active override, cancel_idle_event
followed by show_idle_screen emits nothing: the only state change is the
cancellation itself (tracked deadline 0, scheduled one-shot removed). -/
theorem c10_cancel_show_emits_nothing (s : SkillState)
    (hreg : s.idle_screens = []) (hov : s.override_idle = none) :
    show_idle_screen (cancel_idle_event s) =
      { s with idle_next := 0, scheduled := none } := by
  unfold cancel_idle_event show_idle_screen
  rcases hsel : s.gui_selected with _ | sel <;>
    simp [hov, hreg, hsel]

/-- C10 witness: the no-op evaluated on the concrete registry-less state
with a stale deadline and an armed timer. -/
theorem c10_cancel_show_emits_nothing_witness :
    show_idle_screen (cancel_idle_event stateNoRegistry) =
      { stateNoRegistry with idle_next := 0, scheduled := none } :=
  c10_cancel_show_emits_nothing stateNoRegistry rfl rfl
